import Mathlib

/-!
Verification of the esp_jrnl journaling engine (srcs/esp_jrnl.c) against its
natural-language specification.

The embedding models the engine at sector granularity: the underlying block
device is a finite list of sectors.  All device accesses in the C code are
sector-aligned (`addr = sector * sector_size`, `len = count * sector_size`),
so byte addresses are represented by their sector index.  Sector payloads are
modelled structurally (raw bytes / a master record / an operation record /
erased), mirroring the C structs `esp_jrnl_master_t` and
`esp_jrnl_operation_t`; reinterpreting a sector of the wrong kind (which in C
reads garbage bytes that fail the magic or CRC test) is modelled as the
corresponding check failing.  Machine integers are Nat, with an explicit
`% 2^32` wherever the C arithmetic can wrap (uint32_t / 32-bit size_t).
The disk primitives (`wl_read` / `wl_write` / `wl_erase_range`) are modelled
as total; device-error propagation paths are not exercised by the claims.
-/

namespace EspJrnl

/-- esp_err_t values that appear in esp_jrnl.c. -/
inductive EspErr where
  | ok
  | invalidArg    -- ESP_ERR_INVALID_ARG
  | invalidState  -- ESP_ERR_INVALID_STATE
  | notFound      -- ESP_ERR_NOT_FOUND
  | noMem         -- ESP_ERR_NO_MEM
  | invalidCrc    -- ESP_ERR_INVALID_CRC
  | invalidSize   -- ESP_ERR_INVALID_SIZE
  deriving DecidableEq, Repr

/-- esp_jrnl_trans_status_t.  `fsInit` is ESP_JRNL_STATUS_FS_INIT, which is the
same enumerator value as ESP_JRNL_STATUS_FS_DIRECT (the `switch` in
`jrnl_status_to_str` labels it "Initialize/FS-direct" and has no separate
FS_DIRECT case). -/
inductive JrnlStatus where
  | fsInit      -- ESP_JRNL_STATUS_FS_INIT = ESP_JRNL_STATUS_FS_DIRECT
  | transReady  -- ESP_JRNL_STATUS_TRANS_READY
  | transOpen   -- ESP_JRNL_STATUS_TRANS_OPEN
  | transCommit -- ESP_JRNL_STATUS_TRANS_COMMIT
  deriving DecidableEq, Repr

def JRNL_INVALID_HANDLE : Int := -1
def JRNL_MAX_HANDLES : Nat := 8
def JRNL_MIN_STORE_SIZE : Nat := 3
def JRNL_STORE_MARKER : Nat := 0x6A6B6C6D

def U32 : Nat := 2 ^ 32

/-- esp_jrnl_oper_header_t. -/
structure OperHeader where
  target_sector : Nat
  sector_count : Nat
  crc32_data : Nat
  deriving DecidableEq, Repr

/-- esp_jrnl_operation_t. -/
structure Operation where
  header : OperHeader
  crc32_header : Nat
  deriving DecidableEq, Repr

/-- esp_jrnl_master_t (volume descriptor inlined). -/
structure JrnlMaster where
  jrnl_magic_mark : Nat
  store_size_sectors : Nat
  store_volume_offset_sector : Nat
  next_free_sector : Nat
  status : JrnlStatus
  volume_size : Nat
  disk_sector_size : Nat
  deriving DecidableEq, Repr

/-- esp_jrnl_instance_t (the diskio function table and fs_volume_id carry no
information in the model; trans_lock accounting is modelled separately). -/
structure JrnlInstance where
  master : JrnlMaster
  deriving DecidableEq, Repr

/-- One device sector, modelled structurally (see the header comment). -/
inductive Sector where
  | raw (bytes : List Nat)
  | masterSec (m : JrnlMaster)
  | operSec (op : Operation)
  | erased
  deriving DecidableEq, Repr

/-- The underlying block device: sector `i` of the wear-levelled volume. -/
abbrev Disk := List Sector

/- ---------------------------------------------------------------------
   CRC-32 as computed by esp_crc32_le (ROM implementation: reflected
   polynomial 0xEDB88320, crc = ~init, per-byte 8 shift/xor rounds, final
   complement).  The code always calls it with init = UINT32_MAX.
   --------------------------------------------------------------------- -/

def crc32Round (c : Nat) : Nat :=
  if c % 2 = 1 then (c / 2) ^^^ 0xEDB88320 else c / 2

def crc32Byte (c b : Nat) : Nat :=
  crc32Round (crc32Round (crc32Round (crc32Round
    (crc32Round (crc32Round (crc32Round (crc32Round (c ^^^ b % 256))))))))

def esp_crc32_le (init : Nat) (bytes : List Nat) : Nat :=
  let start := (init % U32) ^^^ (U32 - 1)
  (bytes.foldl crc32Byte start) ^^^ (U32 - 1)

/-- CRC call as issued by esp_jrnl.c: esp_crc32_le(UINT32_MAX, buf, len). -/
def jrnlCrc (bytes : List Nat) : Nat := esp_crc32_le (U32 - 1) bytes

/-- Little-endian 32-bit serialisation of one field. -/
def le32 (x : Nat) : List Nat :=
  [x % 256, x / 2 ^ 8 % 256, x / 2 ^ 16 % 256, x / 2 ^ 24 % 256]

/-- Byte image of esp_jrnl_oper_header_t (three packed 32-bit LE words),
the region covered by crc32_header. -/
def serializeHdr (h : OperHeader) : List Nat :=
  le32 h.target_sector ++ le32 h.sector_count ++ le32 h.crc32_data

/- ---------------------------------------------------------------------
   Raw device primitives (sector granularity).
   --------------------------------------------------------------------- -/

def diskRead (d : Disk) (start count : Nat) : List Sector :=
  ((d : List Sector).drop start).take count

def diskWrite (d : Disk) (start : Nat) (data : List Sector) : Disk :=
  match data with
  | [] => d
  | b :: rest => diskWrite ((d : List Sector).set start b) (start + 1) rest

def diskErase (d : Disk) (start count : Nat) : Disk :=
  match count with
  | 0 => d
  | c + 1 => diskErase ((d : List Sector).set start .erased) (start + 1) c

def diskGet (d : Disk) (i : Nat) : Sector :=
  (d : List Sector).getD i .erased

def diskLen (d : Disk) : Nat := (d : List Sector).length

/- ---------------------------------------------------------------------
   Store-relative helpers (esp_jrnl.c internals).
   --------------------------------------------------------------------- -/

/-- jrnl_get_target_disk_sector. -/
def jrnl_get_target_disk_sector (i : JrnlInstance) (jrnl_sector : Nat) : Nat :=
  i.master.store_volume_offset_sector + jrnl_sector

/-- jrnl_write_internal: bounds check against the store size, then erase and
write `count` sectors at the store-relative index (buff == NULL and
inst == NULL cannot arise in the model). -/
def jrnl_write_internal (i : JrnlInstance) (d : Disk) (buff : List Sector)
    (sector count : Nat) : EspErr × Disk :=
  if sector ≥ i.master.store_size_sectors then (.invalidArg, d)
  else
    let target := jrnl_get_target_disk_sector i sector
    let d1 := diskErase d target count
    (.ok, diskWrite d1 target buff)

/-- jrnl_read_internal: bounds check then raw read. -/
def jrnl_read_internal (i : JrnlInstance) (d : Disk) (sector count : Nat) :
    EspErr × List Sector :=
  if sector ≥ i.master.store_size_sectors then (.invalidArg, [])
  else (.ok, diskRead d (jrnl_get_target_disk_sector i sector) count)

/-- jrnl_update_master: persist the in-memory master to the last store
sector (store_size_sectors - 1). -/
def jrnl_update_master (i : JrnlInstance) (d : Disk) : EspErr × Disk :=
  jrnl_write_internal i d [.masterSec i.master]
    (i.master.store_size_sectors - 1) 1

/-- The master record after the field updates performed by
jrnl_reset_master (the rest of the record is kept). -/
def resetMasterRec (m : JrnlMaster) (fs_direct : Bool) : JrnlMaster :=
  { m with
    jrnl_magic_mark := JRNL_STORE_MARKER
    next_free_sector := 0
    status := if fs_direct then JrnlStatus.fsInit else JrnlStatus.transReady }

/-- jrnl_reset_master. -/
def jrnl_reset_master (i : JrnlInstance) (d : Disk) (fs_direct : Bool) :
    EspErr × JrnlInstance × Disk :=
  let i' : JrnlInstance := { master := resetMasterRec i.master fs_direct }
  let r := jrnl_update_master i' d
  (r.1, i', r.2)

/-- Index of the sector holding the persisted master record, as written by
jrnl_update_master. -/
def masterIndex (m : JrnlMaster) : Nat :=
  m.store_volume_offset_sector + (m.store_size_sectors - 1)

/-- The C code reads an operation header by reinterpreting the sector bytes;
a sector that does not hold an operation record yields garbage whose header
checksum does not match, which surfaces as ESP_ERR_INVALID_CRC. -/
def decodeOper : Sector → Option Operation
  | .operSec op => some op
  | _ => none

/-- Concatenated payload bytes of a run of data sectors; a non-raw sector in
the run stands for bytes whose data checksum does not match. -/
def rawJoin : List Sector → Option (List Nat)
  | [] => some []
  | .raw b :: rest => (rawJoin rest).map (b ++ ·)
  | _ => none

/- ---------------------------------------------------------------------
   jrnl_replay (esp_jrnl.c lines 185-316).
   --------------------------------------------------------------------- -/

/-- One iteration of the replay loop of jrnl_replay: read and checksum the
operation header at store-relative `cursor`, read and checksum its payload
and re-apply it to the target sectors.  `.inl` is a `break` with the loop's
error and the device state; `.inr` carries the device state and the advanced
cursor. -/
def replayStep (i : JrnlInstance) (d : Disk) (cursor : Nat) :
    (EspErr × Disk) ⊕ (Disk × Nat) :=
  -- read the operation header (jrnl_read_internal, 1 sector)
  if cursor ≥ i.master.store_size_sectors then .inl (.invalidArg, d)
  else
    match decodeOper (diskGet d (jrnl_get_target_disk_sector i cursor)) with
    | none => .inl (.invalidCrc, d)
    | some op =>
      if jrnlCrc (serializeHdr op.header) ≠ op.crc32_header then
        .inl (.invalidCrc, d)
      -- read the data (jrnl_read_internal at cursor + 1)
      else if cursor + 1 ≥ i.master.store_size_sectors then
        .inl (.invalidArg, d)
      else
        match rawJoin (diskRead d (jrnl_get_target_disk_sector i (cursor + 1))
          op.header.sector_count) with
        | none => .inl (.invalidCrc, d)
        | some bytes =>
          if jrnlCrc bytes ≠ op.header.crc32_data then .inl (.invalidCrc, d)
          else
            -- store the data to the original location (erase then write)
            let data := diskRead d (jrnl_get_target_disk_sector i (cursor + 1))
              op.header.sector_count
            let d1 := diskErase d op.header.target_sector
              op.header.sector_count
            let d2 := diskWrite d1 op.header.target_sector data
            .inr (d2, cursor + 1 + op.header.sector_count)

/-- Fuel-indexed form of the replay loop.  The fuel only bounds the number of
iterations: the loop of jrnl_replay terminates because the cursor strictly
advances by `1 + sector_count ≥ 1` on every continuing iteration, so
`next_free_sector - cursor` iterations always suffice; `replayLoopFuel` is
fuel-insensitive on all sufficient fuels (theorem `replayLoopFuel_congr`
below), and fuel 0 is only reached with `cursor ≥ next_free_sector`, where
the loop exits with success exactly as the guard dictates. -/
def replayLoopFuel : Nat → JrnlInstance → Disk → Nat → EspErr × Disk
  | 0, _, d, _ => (.ok, d)
  | fuel + 1, i, d, cursor =>
    if cursor < i.master.next_free_sector then
      match replayStep i d cursor with
      | .inl r => r
      | .inr (d2, next) => replayLoopFuel fuel i d2 next
    else (.ok, d)

/-- The replay loop of jrnl_replay: iterate the stored operation records from
store-relative sector `cursor` up to next_free_sector.  Returns the error of
the first failing step and the device state reached. -/
def replayLoop (i : JrnlInstance) (d : Disk) (cursor : Nat) : EspErr × Disk :=
  replayLoopFuel (i.master.next_free_sector - cursor) i d cursor

/-- jrnl_replay.  The `assert(status != FS_INIT)` is a debug aid compiled out
in release builds; the FS_INIT case then falls to the `default` branch of the
switch and fails with ESP_ERR_INVALID_STATE.  The header-buffer allocation is
modelled as succeeding (its failure path is covered by the separate
lock-accounting model below). -/
def jrnl_replay (i : JrnlInstance) (d : Disk) : EspErr × JrnlInstance × Disk :=
  match i.master.status with
  | .transReady => (.ok, i, d)        -- journaling log empty
  | .transOpen => jrnl_reset_master i d false
  | .fsInit => (.invalidState, i, d)  -- default: invalid journaling log status
  | .transCommit =>
    let r := replayLoop i d 0
    if r.1 = .ok then jrnl_reset_master i r.2 false
    else (r.1, i, r.2)

/- ---------------------------------------------------------------------
   Public APIs (instance-level: the handle has been resolved; the handle
   check itself is modelled below for the registry claims).
   --------------------------------------------------------------------- -/

/-- esp_jrnl_start. -/
def esp_jrnl_start (i : JrnlInstance) (d : Disk) :
    EspErr × JrnlInstance × Disk :=
  if i.master.status = .transReady then
    let i1 : JrnlInstance :=
      { master := { i.master with status := .transOpen } }
    let r := jrnl_update_master i1 d
    (r.1, i1, r.2)
  else (.invalidState, i, d)

/-- esp_jrnl_stop. -/
def esp_jrnl_stop (i : JrnlInstance) (d : Disk) (commit : Bool) :
    EspErr × JrnlInstance × Disk :=
  if !commit then
    -- cancel the transaction: unconditional master reset
    jrnl_reset_master i d false
  else if i.master.status = .transOpen then
    let i1 : JrnlInstance :=
      { master := { i.master with status := .transCommit } }
    let r := jrnl_update_master i1 d
    if r.1 ≠ .ok then (r.1, i1, r.2)
    else jrnl_replay i1 r.2
  else (.invalidState, i, d)

/-- esp_jrnl_write.  `buff = none` models a NULL buffer; otherwise `bs` is the
payload split into `count` sectors of bytes.  In the OPEN path the space check
is computed exactly as in C: `next_free_sector + 1 + count` in uint32_t
against `store_size_sectors - 1` in 32-bit size_t, both wrapping. -/
def esp_jrnl_write (i : JrnlInstance) (d : Disk)
    (buff : Option (List (List Nat))) (sector count : Nat) :
    EspErr × JrnlInstance × Disk :=
  match buff with
  | none => (.invalidArg, i, d)
  | some bs =>
    match i.master.status with
    | .fsInit =>
      -- direct write path (status FS_DIRECT): no target bounds check
      let d1 := diskErase d sector count
      (.ok, i, diskWrite d1 sector (bs.map Sector.raw))
    | .transOpen =>
      if (i.master.next_free_sector + 1 + count) % U32 <
          (i.master.store_size_sectors + (U32 - 1)) % U32 then
        let hdr : OperHeader :=
          { target_sector := sector, sector_count := count
            crc32_data := jrnlCrc bs.flatten }
        let op : Operation :=
          { header := hdr, crc32_header := jrnlCrc (serializeHdr hdr) }
        let oper_addr := jrnl_get_target_disk_sector i
          i.master.next_free_sector
        let d1 := diskErase d oper_addr (1 + count)
        let d2 := diskWrite d1 oper_addr [.operSec op]
        let d3 := diskWrite d2 (oper_addr + 1) (bs.map Sector.raw)
        let i1 : JrnlInstance :=
          { master := { i.master with
              next_free_sector := i.master.next_free_sector + 1 + count } }
        let r := jrnl_update_master i1 d3
        (r.1, i1, r.2)
      else (.noMem, i, d)
    | _ => (.invalidState, i, d)

/-- esp_jrnl_read.  `destNull` models a NULL destination buffer; on success the
read sectors are returned.  The boundary check is the C one:
`(sector + count) >= store_volume_offset_sector` in uint32_t. -/
def esp_jrnl_read (i : JrnlInstance) (d : Disk) (destNull : Bool)
    (sector count : Nat) : EspErr × List Sector :=
  if destNull then (.invalidArg, [])
  else if (sector + count) % U32 ≥ i.master.store_volume_offset_sector then
    (.invalidSize, [])
  else (.ok, diskRead d sector count)

/- ---------------------------------------------------------------------
   esp_jrnl_mount (esp_jrnl.c lines 402-523) and on-demand recovery.
   --------------------------------------------------------------------- -/

/-- esp_jrnl_config_extended_t (the diskio table carries no information in
the model). -/
structure JrnlConfig where
  overwrite_existing : Bool
  replay_journal_after_mount : Bool
  force_fs_format : Bool
  store_size_sectors : Nat
  fs_volume_id : Nat
  volume_size : Nat
  disk_sector_size : Nat
  deriving DecidableEq, Repr

/-- The zeroed instance produced by calloc (enum value 0 is FS_INIT). -/
def zeroMaster : JrnlMaster :=
  { jrnl_magic_mark := 0, store_size_sectors := 0
    store_volume_offset_sector := 0, next_free_sector := 0
    status := .fsInit, volume_size := 0, disk_sector_size := 0 }

/-- First phase of esp_jrnl_mount: unless a fresh journal is forced, read the
master record from the last sector of the volume, verify the marker and the
configuration consistency, and (when configured) replay the stored journal. -/
def jrnl_mount_read_phase (cfg : JrnlConfig) (d : Disk) :
    EspErr × JrnlInstance × Disk :=
  if cfg.force_fs_format || cfg.overwrite_existing then
    (.ok, { master := zeroMaster }, d)
  else
    -- master record == the last sector before the WL section
    match diskGet d (cfg.volume_size / cfg.disk_sector_size - 1) with
    | .masterSec m =>
      if m.jrnl_magic_mark = JRNL_STORE_MARKER then
        if cfg.volume_size = m.volume_size ∧
           cfg.disk_sector_size = m.disk_sector_size ∧
           cfg.store_size_sectors = m.store_size_sectors then
          if cfg.replay_journal_after_mount then
            jrnl_replay { master := m } d
          else (.ok, { master := m }, d)
        else (.invalidState, { master := m }, d)
      else (.ok, { master := m }, d)  -- no valid journaling record found
    | _ => (.ok, { master := zeroMaster }, d)  -- garbage bytes: no marker

/-- esp_jrnl_mount, for a successfully allocated handle slot (the NULL-pointer
sanity checks and the registry bookkeeping carry no information here; the
handle-table check itself is modelled below).  Returns the error code and, on
success, the registered instance with the updated device. -/
def esp_jrnl_mount (cfg : JrnlConfig) (d : Disk) :
    EspErr × Option (JrnlInstance × Disk) :=
  if cfg.store_size_sectors < JRNL_MIN_STORE_SIZE then (.invalidArg, none)
  else
    match jrnl_mount_read_phase cfg d with
    | (e, i1, d1) =>
      if e = .ok then
        -- set the configured geometry and reset the master
        -- (fresh journal ⇒ status FS_INIT/FS_DIRECT, else TRANS_READY)
        match jrnl_reset_master
          { master := { i1.master with
              store_size_sectors := cfg.store_size_sectors
              store_volume_offset_sector :=
                cfg.volume_size / cfg.disk_sector_size - cfg.store_size_sectors
              volume_size := cfg.volume_size
              disk_sector_size := cfg.disk_sector_size } } d1
          (cfg.force_fs_format || cfg.overwrite_existing) with
        | (e2, i3, d2) => if e2 = .ok then (.ok, some (i3, d2)) else (e2, none)
      else (e, none)

/-- Recovery on a persisted store: read the master record from the device
(as the mount sequence does), check the marker, and run jrnl_replay on it.
`mIdx` is the device index of the master sector. -/
def jrnl_recover (d : Disk) (mIdx : Nat) : EspErr × Disk :=
  match diskGet d mIdx with
  | .masterSec m =>
    if m.jrnl_magic_mark = JRNL_STORE_MARKER then
      let r := jrnl_replay { master := m } d
      (r.1, r.2.2)
    else (.ok, d)
  | _ => (.ok, d)

/- ---------------------------------------------------------------------
   Handle registry (jrnl_check_handle, esp_jrnl.c lines 44-62) and lock
   accounting (esp_jrnl_unmount, jrnl_replay entry).
   --------------------------------------------------------------------- -/

/-- Outcome of jrnl_check_handle.  The C code indexes
`s_jrnl_instance_ptrs[handle]` whenever the two guards pass; for a handle
outside [0, JRNL_MAX_HANDLES) that index is out of bounds (undefined
behaviour), surfaced here as `oobAccess`. -/
inductive CheckResult where
  | err (e : EspErr)
  | oobAccess (idx : Int)
  | okHandle
  deriving DecidableEq, Repr

/-- jrnl_check_handle.  `table j = true` means slot `j` holds a mounted
instance (s_jrnl_instance_ptrs[j] != NULL). -/
def jrnl_check_handle (table : List Bool) (handle : Int) : CheckResult :=
  if handle = JRNL_INVALID_HANDLE then .err .invalidState
  else if handle ≥ (JRNL_MAX_HANDLES : Nat) then .err .invalidArg
  else if 0 ≤ handle ∧ handle < (JRNL_MAX_HANDLES : Nat) then
    -- s_jrnl_instance_ptrs[handle] == NULL ?
    if table.getD handle.toNat false then .okHandle else .err .notFound
  else .oobAccess handle

/-- Lock accounting for esp_jrnl_unmount: the function acquires
s_instances_lock, then checks the handle; the second component is the depth
at which the global registry lock is still held when the function returns. -/
def esp_jrnl_unmount_locks (table : List Bool) (handle : Int) :
    EspErr × Nat :=
  -- _lock_acquire(&s_instances_lock): depth 1
  match jrnl_check_handle table handle with
  | .err e => (e, 1)          -- early return: the lock is not released
  | .oobAccess _ => (.invalidState, 1)  -- undefined behaviour; see C9
  | .okHandle => (.ok, 0)     -- delete, clear slot, _lock_release

/-- Lock accounting for jrnl_replay: the per-instance trans_lock is acquired
on entry; `allocOk = false` models failure of the operation-header calloc.
The second component is the depth at which trans_lock is still held on
return. -/
def jrnl_replay_locks (i : JrnlInstance) (d : Disk) (allocOk : Bool) :
    (EspErr × JrnlInstance × Disk) × Nat :=
  -- _lock_acquire(&inst_ptr->trans_lock): depth 1
  match i.master.status with
  | .transReady => ((.ok, i, d), 0)                    -- released
  | .transOpen => (jrnl_reset_master i d false, 0)     -- released
  | .fsInit => ((.invalidState, i, d), 0)              -- released
  | .transCommit =>
    if !allocOk then
      ((.noMem, i, d), 1)  -- header == NULL: return without _lock_release
    else
      let r := replayLoop i d 0
      if r.1 = .ok then (jrnl_reset_master i r.2 false, 0)
      else ((r.1, i, r.2), 0)

/- ---------------------------------------------------------------------
   Concrete fixtures (used by witnesses and counterexamples).
   --------------------------------------------------------------------- -/

/-- An 8-sector device of zeroed data sectors. -/
def fxD8 : Disk := List.replicate 8 (Sector.raw [0])

/-- A 20-sector device of zeroed data sectors. -/
def fxD20 : Disk := List.replicate 20 (Sector.raw [0])

/-- Minimal store (3 sectors) at the tail of the 8-sector device. -/
def fxM3 : JrnlMaster :=
  { jrnl_magic_mark := JRNL_STORE_MARKER, store_size_sectors := 3
    store_volume_offset_sector := 5, next_free_sector := 0
    status := .transReady, volume_size := 8, disk_sector_size := 1 }

def fxI3ready : JrnlInstance := { master := fxM3 }

def fxI3open : JrnlInstance := { master := { fxM3 with status := .transOpen } }

def fxI3commit : JrnlInstance :=
  { master := { fxM3 with status := .transCommit } }

def fxI3init : JrnlInstance := { master := { fxM3 with status := .fsInit } }

/-- A 5-sector store at the tail of the 8-sector device, transaction open. -/
def fxM5 : JrnlMaster :=
  { jrnl_magic_mark := JRNL_STORE_MARKER, store_size_sectors := 5
    store_volume_offset_sector := 3, next_free_sector := 0
    status := .transOpen, volume_size := 8, disk_sector_size := 1 }

def fxI5 : JrnlInstance := { master := fxM5 }

/-- State after journaling one single-sector write (target 2, payload [7,7])
into the open 5-sector store. -/
def fxW : EspErr × JrnlInstance × Disk :=
  esp_jrnl_write fxI5 fxD8 (some [[7, 7]]) 2 1

/-- The journaled state of `fxW` with the persisted master flipped to COMMIT,
as esp_jrnl_stop does before replaying: a store holding one valid operation
entry awaiting recovery. -/
def fxCommitMaster : JrnlMaster := { fxW.2.1.master with status := .transCommit }

def fxCommitDisk : Disk := (fxW.2.2).set 7 (.masterSec fxCommitMaster)

/-- A 16-sector store (as in the spec's end-to-end scenarios) at the tail of
the 20-sector device, transaction open. -/
def fxM16 : JrnlMaster :=
  { jrnl_magic_mark := JRNL_STORE_MARKER, store_size_sectors := 16
    store_volume_offset_sector := 4, next_free_sector := 0
    status := .transOpen, volume_size := 20, disk_sector_size := 1 }

def fxI16open : JrnlInstance := { master := fxM16 }

def fxI16commit : JrnlInstance :=
  { master := { fxM16 with status := .transCommit } }

def fxI16direct : JrnlInstance := { master := { fxM16 with status := .fsInit } }

/-- Mount configuration matching `fxM3` with all flags clear. -/
def fxCfg : JrnlConfig :=
  { overwrite_existing := false, replay_journal_after_mount := true
    force_fs_format := false, store_size_sectors := 3
    fs_volume_id := 0, volume_size := 8, disk_sector_size := 1 }

def fxCfgFresh : JrnlConfig := { fxCfg with overwrite_existing := true }

/-- An empty handle table (no instance mounted). -/
def fxTable : List Bool := List.replicate 8 false

/- ---------------------------------------------------------------------
   Basic lemmas about the device primitives.
   --------------------------------------------------------------------- -/

theorem getD_set_self {α : Type} (l : List α) (i : Nat) (v x : α)
    (h : i < l.length) : (l.set i v).getD i x = v := by
  induction l generalizing i with
  | nil => simp at h
  | cons a t ih =>
    cases i with
    | zero => rfl
    | succ n => exact ih n (by simpa using h)

theorem getD_set_ne {α : Type} (l : List α) (i j : Nat) (v x : α)
    (h : j ≠ i) : (l.set i v).getD j x = l.getD j x := by
  induction l generalizing i j with
  | nil => cases i <;> rfl
  | cons a t ih =>
    cases i with
    | zero => cases j with
      | zero => exact absurd rfl h
      | succ m => rfl
    | succ n => cases j with
      | zero => rfl
      | succ m => exact ih n m (fun hc => h (by omega))

theorem diskErase_length (c : Nat) : ∀ (d : Disk) (s : Nat),
    (diskErase d s c).length = d.length := by
  induction c with
  | zero => intro d s; rfl
  | succ n ih => intro d s; simp [diskErase, ih]

theorem diskWrite_length (data : List Sector) : ∀ (d : Disk) (s : Nat),
    (diskWrite d s data).length = d.length := by
  induction data with
  | nil => intro d s; rfl
  | cons b rest ih => intro d s; simp [diskWrite, ih]

theorem diskErase_getD_lt (c : Nat) : ∀ (d : Disk) (s j : Nat), j < s →
    diskGet (diskErase d s c) j = diskGet d j := by
  induction c with
  | zero => intro d s j _; rfl
  | succ n ih =>
    intro d s j hj
    simp only [diskErase]
    rw [ih _ (s + 1) j (by omega)]
    exact getD_set_ne d s j _ _ (by omega)

theorem diskWrite_getD_lt (data : List Sector) : ∀ (d : Disk) (s j : Nat),
    j < s → diskGet (diskWrite d s data) j = diskGet d j := by
  induction data with
  | nil => intro d s j _; rfl
  | cons b rest ih =>
    intro d s j hj
    simp only [diskWrite]
    rw [ih _ (s + 1) j (by omega)]
    exact getD_set_ne d s j _ _ (by omega)

theorem diskErase_one (d : Disk) (s : Nat) :
    diskErase d s 1 = d.set s .erased := rfl

theorem diskWrite_one (d : Disk) (s : Nat) (v : Sector) :
    diskWrite d s [v] = d.set s v := rfl

/- ---------------------------------------------------------------------
   Characterisation of jrnl_update_master / jrnl_reset_master.
   --------------------------------------------------------------------- -/

theorem jrnl_update_master_succ (i : JrnlInstance) (d : Disk)
    (h : 1 ≤ i.master.store_size_sectors) :
    jrnl_update_master i d =
      (.ok, (d.set (masterIndex i.master) .erased).set (masterIndex i.master)
        (.masterSec i.master)) := by
  have hlt : ¬ (i.master.store_size_sectors - 1 ≥ i.master.store_size_sectors) :=
    by omega
  simp [jrnl_update_master, jrnl_write_internal, hlt, masterIndex,
    jrnl_get_target_disk_sector, diskErase_one, diskWrite_one]

theorem jrnl_update_master_zero (i : JrnlInstance) (d : Disk)
    (h : i.master.store_size_sectors = 0) :
    jrnl_update_master i d = (.invalidArg, d) := by
  simp [jrnl_update_master, jrnl_write_internal, h]

theorem jrnl_reset_master_succ (i : JrnlInstance) (d : Disk) (fsd : Bool)
    (h : 1 ≤ i.master.store_size_sectors) :
    jrnl_reset_master i d fsd =
      (.ok, { master := resetMasterRec i.master fsd },
        (d.set (masterIndex i.master) .erased).set (masterIndex i.master)
          (.masterSec (resetMasterRec i.master fsd))) := by
  have hsz : (resetMasterRec i.master fsd).store_size_sectors =
      i.master.store_size_sectors := rfl
  have hoff : (resetMasterRec i.master fsd).store_volume_offset_sector =
      i.master.store_volume_offset_sector := rfl
  have := jrnl_update_master_succ { master := resetMasterRec i.master fsd } d
    (by rw [show ({ master := resetMasterRec i.master fsd } :
      JrnlInstance).master = resetMasterRec i.master fsd from rfl, hsz]; exact h)
  simp only [jrnl_reset_master, this]
  have hmi : masterIndex (resetMasterRec i.master fsd) =
      masterIndex i.master := by
    simp [masterIndex, resetMasterRec]
  rw [hmi]

theorem jrnl_reset_master_zero (i : JrnlInstance) (d : Disk) (fsd : Bool)
    (h : i.master.store_size_sectors = 0) :
    jrnl_reset_master i d fsd =
      (.invalidArg, { master := resetMasterRec i.master fsd }, d) := by
  have := jrnl_update_master_zero { master := resetMasterRec i.master fsd } d
    (by simpa [resetMasterRec] using h)
  simp only [jrnl_reset_master, this]

theorem jrnl_reset_master_inst (i : JrnlInstance) (d : Disk) (fsd : Bool) :
    (jrnl_reset_master i d fsd).2.1 =
      { master := resetMasterRec i.master fsd } := rfl

/- ---------------------------------------------------------------------
   Lemmas about the replay loop.
   --------------------------------------------------------------------- -/

theorem replayStep_inr_length (i : JrnlInstance) (d : Disk) (cursor : Nat)
    (d2 : Disk) (n : Nat) (h : replayStep i d cursor = .inr (d2, n)) :
    d2.length = d.length := by
  unfold replayStep at h
  split at h
  · exact absurd h (by simp)
  · split at h
    · exact absurd h (by simp)
    · split at h
      · exact absurd h (by simp)
      · split at h
        · exact absurd h (by simp)
        · split at h
          · exact absurd h (by simp)
          · split at h
            · exact absurd h (by simp)
            · rw [Sum.inr.injEq, Prod.mk.injEq] at h
              rcases h with ⟨h1, -⟩
              rw [← h1, diskWrite_length, diskErase_length]

theorem replayStep_inl_disk (i : JrnlInstance) (d : Disk) (cursor : Nat)
    (e : EspErr) (d' : Disk) (h : replayStep i d cursor = .inl (e, d')) :
    d' = d := by
  unfold replayStep at h
  split at h
  · rw [Sum.inl.injEq, Prod.mk.injEq] at h; exact h.2.symm
  · split at h
    · rw [Sum.inl.injEq, Prod.mk.injEq] at h; exact h.2.symm
    · split at h
      · rw [Sum.inl.injEq, Prod.mk.injEq] at h; exact h.2.symm
      · split at h
        · rw [Sum.inl.injEq, Prod.mk.injEq] at h; exact h.2.symm
        · split at h
          · rw [Sum.inl.injEq, Prod.mk.injEq] at h; exact h.2.symm
          · split at h
            · rw [Sum.inl.injEq, Prod.mk.injEq] at h; exact h.2.symm
            · exact absurd h (by simp)

theorem replayStep_inr_lt (i : JrnlInstance) (d : Disk) (cursor : Nat)
    (d2 : Disk) (n : Nat) (h : replayStep i d cursor = .inr (d2, n)) :
    cursor < n := by
  unfold replayStep at h
  split at h
  · exact absurd h (by simp)
  · split at h
    · exact absurd h (by simp)
    · split at h
      · exact absurd h (by simp)
      · split at h
        · exact absurd h (by simp)
        · split at h
          · exact absurd h (by simp)
          · split at h
            · exact absurd h (by simp)
            · rw [Sum.inr.injEq, Prod.mk.injEq] at h
              omega

theorem replayLoopFuel_congr : ∀ (f f' : Nat) (i : JrnlInstance) (d : Disk)
    (c : Nat), i.master.next_free_sector - c ≤ f →
    i.master.next_free_sector - c ≤ f' →
    replayLoopFuel f i d c = replayLoopFuel f' i d c := by
  intro f
  induction f with
  | zero =>
    intro f' i d c hf hf'
    have hge : ¬ c < i.master.next_free_sector := by omega
    cases f' with
    | zero => rfl
    | succ b => rw [replayLoopFuel, replayLoopFuel, if_neg hge]
  | succ a ih =>
    intro f' i d c hf hf'
    cases f' with
    | zero =>
      have hge : ¬ c < i.master.next_free_sector := by omega
      rw [replayLoopFuel, replayLoopFuel, if_neg hge]
    | succ b =>
      rw [replayLoopFuel, replayLoopFuel]
      by_cases hlt : c < i.master.next_free_sector
      · rw [if_pos hlt, if_pos hlt]
        cases hs : replayStep i d c with
        | inl r => rfl
        | inr p =>
          obtain ⟨d2, n⟩ := p
          have hn := replayStep_inr_lt i d c d2 n hs
          exact ih b i d2 n (by omega) (by omega)
      · rw [if_neg hlt, if_neg hlt]

/-- `replayLoop` satisfies the literal loop equation of jrnl_replay. -/
theorem replayLoop_unfold (i : JrnlInstance) (d : Disk) (c : Nat) :
    replayLoop i d c =
      if c < i.master.next_free_sector then
        match replayStep i d c with
        | .inl r => r
        | .inr (d2, next) => replayLoop i d2 next
      else (.ok, d) := by
  rw [replayLoop]
  by_cases hlt : c < i.master.next_free_sector
  · have h1 : i.master.next_free_sector - c =
        (i.master.next_free_sector - c - 1) + 1 := by omega
    rw [h1, replayLoopFuel, if_pos hlt, if_pos hlt]
    cases hs : replayStep i d c with
    | inl r => rfl
    | inr p =>
      obtain ⟨d2, n⟩ := p
      have hn := replayStep_inr_lt i d c d2 n hs
      show replayLoopFuel (i.master.next_free_sector - c - 1) i d2 n =
        replayLoop i d2 n
      rw [replayLoop]
      exact replayLoopFuel_congr _ _ i d2 n (by omega) (by omega)
  · rw [if_neg hlt]
    cases h0 : i.master.next_free_sector - c with
    | zero => rfl
    | succ b => rw [replayLoopFuel, if_neg hlt]

theorem replayLoopFuel_length : ∀ (f : Nat) (i : JrnlInstance) (d : Disk)
    (c : Nat), ((replayLoopFuel f i d c).2).length = d.length := by
  intro f
  induction f with
  | zero => intro i d c; rfl
  | succ a ih =>
    intro i d c
    rw [replayLoopFuel]
    by_cases hlt : c < i.master.next_free_sector
    · rw [if_pos hlt]
      cases hs : replayStep i d c with
      | inl r =>
        obtain ⟨e, d'⟩ := r
        simp only
        rw [replayStep_inl_disk i d c e d' hs]
      | inr p =>
        obtain ⟨d2, n⟩ := p
        simp only
        rw [ih i d2 n, replayStep_inr_length i d c d2 n hs]
    · rw [if_neg hlt]

theorem replayLoop_length (i : JrnlInstance) (d : Disk) (c : Nat) :
    ((replayLoop i d c).2).length = d.length := by
  rw [replayLoop]
  exact replayLoopFuel_length _ i d c

/- ---------------------------------------------------------------------
   Postconditions of jrnl_replay.
   --------------------------------------------------------------------- -/

/-- A successful jrnl_replay on a COMMIT-state instance ends in the reset
master: status READY, next_free_sector 0, magic set, geometry unchanged, and
the reset master persisted at the master sector of a device of unchanged
size. -/
theorem jrnl_replay_commit_ok (i : JrnlInstance) (d : Disk)
    (i' : JrnlInstance) (d' : Disk)
    (hst : i.master.status = .transCommit)
    (h : jrnl_replay i d = (.ok, i', d')) :
    i' = { master := resetMasterRec i.master false } ∧
    1 ≤ i.master.store_size_sectors ∧
    d'.length = d.length ∧
    (masterIndex i.master < d.length →
      diskGet d' (masterIndex i.master) = .masterSec i'.master) := by
  rw [jrnl_replay, hst] at h
  set r := replayLoop i d 0 with hr
  by_cases he : r.1 = .ok
  · rw [if_pos he] at h
    by_cases hsz : 1 ≤ i.master.store_size_sectors
    · rw [jrnl_reset_master_succ i r.2 false hsz] at h
      rw [Prod.mk.injEq, Prod.mk.injEq] at h
      obtain ⟨-, hi, hd⟩ := h
      have hlen : r.2.length = d.length := by
        rw [hr]; exact replayLoop_length i d 0
      refine ⟨hi.symm, hsz, ?_, ?_⟩
      · rw [← hd]; simp [hlen]
      · intro hmi
        rw [← hd, ← hi]
        exact getD_set_self _ _ _ _ (by simp [hlen]; omega)
    · rw [jrnl_reset_master_zero i r.2 false (by omega)] at h
      rw [Prod.mk.injEq] at h
      exact absurd h.1.symm (by simp)
  · rw [if_neg he] at h
    rw [Prod.mk.injEq, Prod.mk.injEq] at h
    exact absurd h.1 he

/-- A successful jrnl_replay on a COMMIT-state instance decomposes as: the
replay loop runs from cursor 0 over all stored operations, and only then is
the reset master written (jrnl_reset_master is the last step). -/
theorem jrnl_replay_commit_decomp (i : JrnlInstance) (d : Disk)
    (i' : JrnlInstance) (d' : Disk)
    (hst : i.master.status = .transCommit)
    (h : jrnl_replay i d = (.ok, i', d')) :
    ∃ dmid : Disk, replayLoop i d 0 = (.ok, dmid) ∧
      jrnl_reset_master i dmid false = (.ok, i', d') := by
  rw [jrnl_replay, hst] at h
  set r := replayLoop i d 0 with hr
  by_cases he : r.1 = .ok
  · rw [if_pos he] at h
    refine ⟨r.2, ?_, h⟩
    rw [← he]
  · rw [if_neg he] at h
    rw [Prod.mk.injEq, Prod.mk.injEq] at h
    exact absurd h.1 he

/-- Behaviour of esp_jrnl_write in the OPEN state: the append happens exactly
when the C space check `next_free_sector + 1 + count < store_size_sectors - 1`
(32-bit arithmetic) passes; otherwise the call fails with ESP_ERR_NO_MEM and
neither the instance nor the device changes. -/
theorem esp_jrnl_write_open_spec (i : JrnlInstance) (d : Disk)
    (bs : List (List Nat)) (sector count : Nat)
    (hst : i.master.status = .transOpen) :
    (¬ ((i.master.next_free_sector + 1 + count) % U32 <
        (i.master.store_size_sectors + (U32 - 1)) % U32) →
      esp_jrnl_write i d (some bs) sector count = (.noMem, i, d)) ∧
    (((i.master.next_free_sector + 1 + count) % U32 <
        (i.master.store_size_sectors + (U32 - 1)) % U32) →
      1 ≤ i.master.store_size_sectors →
      (esp_jrnl_write i d (some bs) sector count).1 = .ok ∧
      (esp_jrnl_write i d (some bs) sector count).2.1.master =
        { i.master with next_free_sector :=
            i.master.next_free_sector + 1 + count }) := by
  obtain ⟨⟨mg, ss, off, nfs, st, vs, dss⟩⟩ := i
  simp only at hst
  subst hst
  constructor
  · intro hc
    simp only [esp_jrnl_write]
    rw [if_neg hc]
  · intro hc hsz
    simp only [esp_jrnl_write]
    rw [if_pos hc]
    have h1 : ∀ dd : Disk, (jrnl_update_master
        ⟨{ jrnl_magic_mark := mg, store_size_sectors := ss,
           store_volume_offset_sector := off,
           next_free_sector := nfs + 1 + count, status := .transOpen,
           volume_size := vs, disk_sector_size := dss }⟩ dd).1 = .ok := by
      intro dd
      have hsz2 : 1 ≤ ss := hsz
      rw [jrnl_update_master_succ _ _ hsz2]
    exact ⟨h1 _, rfl⟩

/- ---------------------------------------------------------------------
   The claims.
   --------------------------------------------------------------------- -/

/-- C1: every esp_jrnl_stop call (commit = true or false) that returns
success leaves the master record with status READY and next_free_sector = 0,
both in the in-memory copy and in the persisted copy at the master sector;
and on commit the final state is reached by first running the replay loop
over all stored operation entries (from the device on which the COMMIT
master was persisted) and writing the reset master as the last step. -/
theorem claim_C1_transaction_end_resets_master (i : JrnlInstance) (d : Disk)
    (commit : Bool) (i' : JrnlInstance) (d' : Disk)
    (h : esp_jrnl_stop i d commit = (.ok, i', d')) :
    i'.master.status = .transReady ∧
    i'.master.next_free_sector = 0 ∧
    d'.length = d.length ∧
    (masterIndex i.master < d.length →
      diskGet d' (masterIndex i.master) = .masterSec i'.master) ∧
    (commit = true →
      ∃ dmid : Disk,
        replayLoop { master := { i.master with status := .transCommit } }
          ((d.set (masterIndex i.master) .erased).set (masterIndex i.master)
            (.masterSec { i.master with status := .transCommit })) 0 =
          (.ok, dmid) ∧
        jrnl_reset_master { master := { i.master with status := .transCommit } }
          dmid false = (.ok, i', d')) := by
  cases commit with
  | false =>
    rw [esp_jrnl_stop] at h
    simp only [Bool.not_false, if_pos] at h
    by_cases hsz : 1 ≤ i.master.store_size_sectors
    · rw [jrnl_reset_master_succ i d false hsz] at h
      rw [Prod.mk.injEq, Prod.mk.injEq] at h
      obtain ⟨-, hi, hd⟩ := h
      refine ⟨by rw [← hi]; rfl, by rw [← hi]; rfl, by simp [← hd], ?_, by simp⟩
      intro hmi
      rw [← hd, ← hi]
      exact getD_set_self _ _ _ _ (by simp; omega)
    · rw [jrnl_reset_master_zero i d false (by omega)] at h
      rw [Prod.mk.injEq] at h
      exact absurd h.1.symm (by simp)
  | true =>
    rw [esp_jrnl_stop] at h
    simp only [Bool.not_true, Bool.false_eq_true, if_false] at h
    by_cases hop : i.master.status = .transOpen
    · rw [if_pos hop] at h
      set i1 : JrnlInstance :=
        { master := { i.master with status := .transCommit } } with hi1
      have hs0 : i1.master.store_size_sectors = i.master.store_size_sectors := by
        rw [hi1]
      have hmi1 : masterIndex i1.master = masterIndex i.master := by
        rw [hi1]; rfl
      by_cases hsz : 1 ≤ i.master.store_size_sectors
      · have hup := jrnl_update_master_succ i1 d (by rw [hs0]; exact hsz)
        simp only [hup] at h
        simp only [ne_eq, not_true_eq_false, if_false] at h
        have hstc : i1.master.status = .transCommit := by rw [hi1]
        have hrep := jrnl_replay_commit_ok i1 _ i' d' hstc h
        obtain ⟨hi, -, hlen, hper⟩ := hrep
        have hdec := jrnl_replay_commit_decomp i1 _ i' d' hstc h
        rw [hmi1] at hdec
        refine ⟨by rw [hi]; rfl, by rw [hi]; rfl, by simpa using hlen, ?_,
          fun _ => hdec⟩
        intro hlt
        have := hper (by rw [hmi1]; simpa using hlt)
        rwa [hmi1] at this
      · have hup := jrnl_update_master_zero i1 d (by rw [hs0]; omega)
        simp only [hup] at h
        simp only [ne_eq, if_pos] at h
        rw [Prod.mk.injEq] at h
        exact absurd h.1.symm (by simp)
    · rw [if_neg hop, Prod.mk.injEq] at h
      exact absurd h.1.symm (by simp)

/-- Witness for C1: committing an (empty) open transaction on the 3-sector
store succeeds and leaves the master READY with next_free_sector 0, persisted
at the master sector. -/
theorem claim_C1_witness :
    esp_jrnl_stop fxI3open fxD8 true =
      (.ok, (esp_jrnl_stop fxI3open fxD8 true).2.1,
        (esp_jrnl_stop fxI3open fxD8 true).2.2) ∧
    (esp_jrnl_stop fxI3open fxD8 true).2.1.master.status = .transReady ∧
    (esp_jrnl_stop fxI3open fxD8 true).2.1.master.next_free_sector = 0 ∧
    diskGet (esp_jrnl_stop fxI3open fxD8 true).2.2
        (masterIndex fxI3open.master) =
      .masterSec (esp_jrnl_stop fxI3open fxD8 true).2.1.master := by
  have h : esp_jrnl_stop fxI3open fxD8 true =
      (.ok, (esp_jrnl_stop fxI3open fxD8 true).2.1,
        (esp_jrnl_stop fxI3open fxD8 true).2.2) := by decide
  have hc := claim_C1_transaction_end_resets_master fxI3open fxD8 true _ _ h
  exact ⟨h, hc.1, hc.2.1, hc.2.2.2.1 (by decide)⟩

/-- C2: jrnl_replay acts according to the master status: READY is a no-op
returning success; OPEN discards the transaction by resetting the master
(status READY, next_free_sector 0) and writes no file-system target sector
(no sector below store_volume_offset_sector); COMMIT re-executes the replay
of the stored operation entries from cursor 0 before writing the reset
master; any other status (FS_INIT/FS_DIRECT) fails with invalid state. -/
theorem claim_C2_recovery_by_status (i : JrnlInstance) (d : Disk) :
    (i.master.status = .transReady → jrnl_replay i d = (.ok, i, d)) ∧
    (i.master.status = .transOpen →
      (jrnl_replay i d).2.1.master.status = .transReady ∧
      (jrnl_replay i d).2.1.master.next_free_sector = 0 ∧
      (∀ j, j < i.master.store_volume_offset_sector →
        diskGet (jrnl_replay i d).2.2 j = diskGet d j)) ∧
    (i.master.status = .transCommit →
      ∀ i' d', jrnl_replay i d = (.ok, i', d') →
        ∃ dmid : Disk, replayLoop i d 0 = (.ok, dmid) ∧
          jrnl_reset_master i dmid false = (.ok, i', d')) ∧
    (i.master.status = .fsInit → jrnl_replay i d = (.invalidState, i, d)) := by
  refine ⟨?_, ?_, ?_, ?_⟩
  · intro h; rw [jrnl_replay, h]
  · intro h
    rw [jrnl_replay, h]
    by_cases hsz : 1 ≤ i.master.store_size_sectors
    · rw [jrnl_reset_master_succ i d false hsz]
      refine ⟨rfl, rfl, ?_⟩
      intro j hj
      have hne : j ≠ masterIndex i.master := by
        simp only [masterIndex]; omega
      simp only [diskGet]
      rw [getD_set_ne _ _ _ _ _ hne, getD_set_ne _ _ _ _ _ hne]
    · rw [jrnl_reset_master_zero i d false (by omega)]
      exact ⟨rfl, rfl, fun j _ => rfl⟩
  · intro h i' d' hres
    exact jrnl_replay_commit_decomp i d i' d' h hres
  · intro h; rw [jrnl_replay, h]

/-- Witness for C2: the four recovery behaviours on the 3-sector store. -/
theorem claim_C2_witness :
    jrnl_replay fxI3ready fxD8 = (.ok, fxI3ready, fxD8) ∧
    (jrnl_replay fxI3open fxD8).2.1.master.status = .transReady ∧
    (jrnl_replay fxI3open fxD8).2.1.master.next_free_sector = 0 ∧
    diskGet (jrnl_replay fxI3open fxD8).2.2 0 = diskGet fxD8 0 ∧
    (∃ dmid : Disk, replayLoop fxI3commit fxD8 0 = (.ok, dmid) ∧
      jrnl_reset_master fxI3commit dmid false =
        (.ok, (jrnl_replay fxI3commit fxD8).2.1,
          (jrnl_replay fxI3commit fxD8).2.2)) ∧
    jrnl_replay fxI3init fxD8 = (.invalidState, fxI3init, fxD8) := by
  refine ⟨(claim_C2_recovery_by_status fxI3ready fxD8).1 rfl,
    (claim_C2_recovery_by_status fxI3open fxD8).2.1 rfl |>.1,
    (claim_C2_recovery_by_status fxI3open fxD8).2.1 rfl |>.2.1,
    (claim_C2_recovery_by_status fxI3open fxD8).2.1 rfl |>.2.2 0 (by decide),
    (claim_C2_recovery_by_status fxI3commit fxD8).2.2.1 rfl _ _ (by decide),
    (claim_C2_recovery_by_status fxI3init fxD8).2.2.2 rfl⟩

/-- C3: recovery is idempotent.  If the persisted master (read at `mIdx`, the
master sector of its own geometry) has status COMMIT and a first run of
recovery succeeds producing device `d'`, a second run of recovery on `d'`
returns `d'` unchanged. -/
theorem claim_C3_recovery_idempotent (d : Disk) (mIdx : Nat) (m : JrnlMaster)
    (d' : Disk)
    (hm : diskGet d mIdx = .masterSec m)
    (hst : m.status = .transCommit)
    (hidx : mIdx = masterIndex m)
    (hlen : mIdx < d.length)
    (h1 : jrnl_recover d mIdx = (.ok, d')) :
    jrnl_recover d' mIdx = (.ok, d') := by
  rw [jrnl_recover, hm] at h1
  have h1x : (if m.jrnl_magic_mark = JRNL_STORE_MARKER then
      ((jrnl_replay { master := m } d).1, (jrnl_replay { master := m } d).2.2)
    else ((.ok : EspErr), d)) = ((.ok : EspErr), d') := h1
  by_cases hmg : m.jrnl_magic_mark = JRNL_STORE_MARKER
  · rw [if_pos hmg] at h1x
    set r := jrnl_replay { master := m } d with hr
    rw [Prod.mk.injEq] at h1x
    obtain ⟨he, hd⟩ := h1x
    have hrep : jrnl_replay { master := m } d = (.ok, r.2.1, r.2.2) := by
      rw [← hr, ← he]
    have hcom := jrnl_replay_commit_ok { master := m } d r.2.1 r.2.2 hst hrep
    obtain ⟨hi, hsz, hlen2, hper⟩ := hcom
    have hmidx : masterIndex ({ master := m } : JrnlInstance).master =
        masterIndex m := rfl
    have hpe := hper (by rw [hmidx, ← hidx]; exact hlen)
    rw [hi] at hpe
    have hd'm : diskGet d' mIdx = .masterSec (resetMasterRec m false) := by
      rw [← hd, hidx, ← hmidx]
      exact hpe
    have hfin : jrnl_recover d' mIdx =
        (if (resetMasterRec m false).jrnl_magic_mark = JRNL_STORE_MARKER then
          ((jrnl_replay { master := resetMasterRec m false } d').1,
            (jrnl_replay { master := resetMasterRec m false } d').2.2)
        else ((.ok : EspErr), d')) := by
      rw [jrnl_recover, hd'm]
    rw [hfin, if_pos (show (resetMasterRec m false).jrnl_magic_mark =
      JRNL_STORE_MARKER from rfl)]
    rfl
  · rw [if_neg hmg] at h1x
    rw [Prod.mk.injEq] at h1x
    obtain ⟨-, hdd⟩ := h1x
    have hgoal : jrnl_recover d' mIdx =
        (if m.jrnl_magic_mark = JRNL_STORE_MARKER then
          ((jrnl_replay { master := m } d').1,
            (jrnl_replay { master := m } d').2.2)
        else ((.ok : EspErr), d')) := by
      rw [jrnl_recover, ← hdd, hm]
    rw [hgoal, if_neg hmg]

/-- C4 counterexample: a successful esp_jrnl_mount without
overwrite_existing and without force_fs_format (here: a blank device, all
flags clear) leaves the master with status TRANS_READY, not the
INIT/FS-direct status the claim asserts for every successful mount. -/
theorem claim_C4_counterexample :
    (esp_jrnl_mount fxCfg fxD8).1 = .ok ∧
    Option.map (fun p => p.1.master.status) (esp_jrnl_mount fxCfg fxD8).2 =
      some .transReady ∧
    JrnlStatus.transReady ≠ JrnlStatus.fsInit := by
  refine ⟨by decide, by decide, by decide⟩

/-- C4 (amended): on every successful esp_jrnl_mount the final step resets
the master record: with overwrite_existing or force_fs_format set the status
is FS_INIT (= FS_DIRECT), and on every other successful mount path the final
reset leaves status TRANS_READY; in all cases next_free_sector = 0, the
magic mark is set, and the store geometry is the configured one. -/
theorem claim_C4_mount_final_master (cfg : JrnlConfig) (d : Disk)
    (i' : JrnlInstance) (d' : Disk)
    (h : esp_jrnl_mount cfg d = (.ok, some (i', d'))) :
    i'.master.status = (if cfg.force_fs_format || cfg.overwrite_existing
      then JrnlStatus.fsInit else JrnlStatus.transReady) ∧
    i'.master.next_free_sector = 0 ∧
    i'.master.jrnl_magic_mark = JRNL_STORE_MARKER ∧
    i'.master.store_size_sectors = cfg.store_size_sectors ∧
    i'.master.store_volume_offset_sector =
      cfg.volume_size / cfg.disk_sector_size - cfg.store_size_sectors := by
  rw [esp_jrnl_mount] at h
  by_cases hsz : cfg.store_size_sectors < JRNL_MIN_STORE_SIZE
  · rw [if_pos hsz] at h
    exact absurd h (by simp)
  · rw [if_neg hsz] at h
    rcases hp : jrnl_mount_read_phase cfg d with ⟨e, i1, d1⟩
    rw [hp] at h
    have h2 : (if e = .ok then
        (match jrnl_reset_master
          { master := { i1.master with
              store_size_sectors := cfg.store_size_sectors
              store_volume_offset_sector :=
                cfg.volume_size / cfg.disk_sector_size - cfg.store_size_sectors
              volume_size := cfg.volume_size
              disk_sector_size := cfg.disk_sector_size } } d1
          (cfg.force_fs_format || cfg.overwrite_existing) with
          | (e2, i3, d2) =>
            if e2 = .ok then ((.ok : EspErr), some (i3, d2)) else (e2, none))
      else (e, none)) = ((.ok : EspErr), some (i', d')) := h
    by_cases he : e = .ok
    · rw [if_pos he] at h2
      rcases hr : jrnl_reset_master
        { master := { i1.master with
            store_size_sectors := cfg.store_size_sectors
            store_volume_offset_sector :=
              cfg.volume_size / cfg.disk_sector_size - cfg.store_size_sectors
            volume_size := cfg.volume_size
            disk_sector_size := cfg.disk_sector_size } } d1
        (cfg.force_fs_format || cfg.overwrite_existing) with ⟨e2, i3, d2⟩
      rw [hr] at h2
      have h3 : (if e2 = .ok then ((.ok : EspErr), some (i3, d2))
          else (e2, none)) = ((.ok : EspErr), some (i', d')) := h2
      by_cases he2 : e2 = .ok
      · rw [if_pos he2] at h3
        rw [Prod.mk.injEq, Option.some.injEq, Prod.mk.injEq] at h3
        obtain ⟨-, hi, -⟩ := h3
        have hinst := jrnl_reset_master_inst
          { master := { i1.master with
              store_size_sectors := cfg.store_size_sectors
              store_volume_offset_sector :=
                cfg.volume_size / cfg.disk_sector_size - cfg.store_size_sectors
              volume_size := cfg.volume_size
              disk_sector_size := cfg.disk_sector_size } } d1
          (cfg.force_fs_format || cfg.overwrite_existing)
        rw [hr] at hinst
        have hinst2 : i3 = { master := resetMasterRec { i1.master with
            store_size_sectors := cfg.store_size_sectors
            store_volume_offset_sector :=
              cfg.volume_size / cfg.disk_sector_size - cfg.store_size_sectors
            volume_size := cfg.volume_size
            disk_sector_size :=
              cfg.disk_sector_size } (cfg.force_fs_format ||
                cfg.overwrite_existing) } := hinst
        rw [← hi, hinst2]
        refine ⟨?_, rfl, rfl, rfl, rfl⟩
        cases (cfg.force_fs_format || cfg.overwrite_existing) <;> rfl
      · rw [if_neg he2] at h3
        rw [Prod.mk.injEq] at h3
        exact absurd h3.1 he2
    · rw [if_neg he] at h2
      rw [Prod.mk.injEq] at h2
      exact absurd h2.2 (by simp)

/-- Witness for C4 (amended): a fresh mount (overwrite_existing set) succeeds
with status FS_INIT, next_free_sector 0 and the marker set. -/
theorem claim_C4_witness :
    esp_jrnl_mount fxCfgFresh fxD8 =
      (.ok, some ((esp_jrnl_mount fxCfgFresh fxD8).2.getD ({ master := zeroMaster }, []))) ∧
    ((esp_jrnl_mount fxCfgFresh fxD8).2.getD ({ master := zeroMaster }, [])).1.master.status = .fsInit ∧
    ((esp_jrnl_mount fxCfgFresh fxD8).2.getD ({ master := zeroMaster }, [])).1.master.next_free_sector = 0 ∧
    ((esp_jrnl_mount fxCfgFresh fxD8).2.getD ({ master := zeroMaster }, [])).1.master.jrnl_magic_mark =
      JRNL_STORE_MARKER := by
  have h : esp_jrnl_mount fxCfgFresh fxD8 =
      (.ok, some ((esp_jrnl_mount fxCfgFresh fxD8).2.getD ({ master := zeroMaster }, []))) := by decide
  have hc := claim_C4_mount_final_master fxCfgFresh fxD8
    ((esp_jrnl_mount fxCfgFresh fxD8).2.getD ({ master := zeroMaster }, [])).1
    ((esp_jrnl_mount fxCfgFresh fxD8).2.getD ({ master := zeroMaster }, [])).2
    (by decide)
  exact ⟨h, by rw [hc.1]; rfl, hc.2.1, hc.2.2.1⟩

set_option maxRecDepth 8192 in
/-- Witness for C3: a store holding one valid journaled operation entry with
persisted status COMMIT; recovery succeeds and a second recovery is the
identity. -/
theorem claim_C3_witness :
    jrnl_recover fxCommitDisk 7 = (.ok, (jrnl_recover fxCommitDisk 7).2) ∧
    jrnl_recover (jrnl_recover fxCommitDisk 7).2 7 =
      (.ok, (jrnl_recover fxCommitDisk 7).2) := by
  have h1 : jrnl_recover fxCommitDisk 7 =
      (.ok, (jrnl_recover fxCommitDisk 7).2) := by decide
  exact ⟨h1, claim_C3_recovery_idempotent fxCommitDisk 7 fxCommitMaster _
    (by decide) (by decide) (by decide) (by decide) h1⟩

/-- C5 counterexample: with store_size_sectors = 16, next_free_sector = 0 and
count = 14, the claim's condition `next_free_sector + 1 + count ≤
store_size_sectors - 1` holds (15 ≤ 15), yet esp_jrnl_write fails with
ESP_ERR_NO_MEM (the C check is the strict `<`), leaving the state
unchanged. -/
theorem claim_C5_counterexample :
    fxI16open.master.next_free_sector + 1 + 14 ≤
      fxI16open.master.store_size_sectors - 1 ∧
    fxI16open.master.status = .transOpen ∧
    esp_jrnl_write fxI16open fxD20 (some (List.replicate 14 [1])) 0 14 =
      (.noMem, fxI16open, fxD20) := by
  exact ⟨by decide, by decide, by decide⟩

/-- C5 (amended): for every esp_jrnl_write in status OPEN with a non-null
buffer on a mountable store (store_size_sectors ≥ JRNL_MIN_STORE_SIZE), the
operation entry is appended exactly when the strict inequality
`next_free_sector + 1 + count < store_size_sectors - 1` (32-bit arithmetic)
holds beforehand; otherwise the call fails with ESP_ERR_NO_MEM and the
journal state is unchanged (same instance, same device, status still
OPEN). -/
theorem claim_C5_write_space_check (i : JrnlInstance) (d : Disk)
    (bs : List (List Nat)) (sector count : Nat)
    (hst : i.master.status = .transOpen)
    (hsz : JRNL_MIN_STORE_SIZE ≤ i.master.store_size_sectors) :
    ((esp_jrnl_write i d (some bs) sector count).1 = .ok ↔
      (i.master.next_free_sector + 1 + count) % U32 <
        (i.master.store_size_sectors + (U32 - 1)) % U32) ∧
    (¬ ((i.master.next_free_sector + 1 + count) % U32 <
        (i.master.store_size_sectors + (U32 - 1)) % U32) →
      esp_jrnl_write i d (some bs) sector count = (.noMem, i, d)) ∧
    (((i.master.next_free_sector + 1 + count) % U32 <
        (i.master.store_size_sectors + (U32 - 1)) % U32) →
      (esp_jrnl_write i d (some bs) sector count).2.1.master.next_free_sector =
        i.master.next_free_sector + 1 + count) := by
  have hspec := esp_jrnl_write_open_spec i d bs sector count hst
  have hsz1 : 1 ≤ i.master.store_size_sectors := by
    have : JRNL_MIN_STORE_SIZE = 3 := rfl
    omega
  refine ⟨⟨?_, fun hc => (hspec.2 hc hsz1).1⟩, hspec.1, ?_⟩
  · intro hok
    by_contra hc
    have := hspec.1 hc
    rw [this] at hok
    exact absurd hok (by simp)
  · intro hc
    rw [(hspec.2 hc hsz1).2]

/-- Witness for C5 (amended): on the 16-sector store a 13-sector write
appends (cursor advances to 14) and a 14-sector write is refused with
ESP_ERR_NO_MEM. -/
theorem claim_C5_witness :
    (esp_jrnl_write fxI16open fxD20 (some (List.replicate 13 [1])) 0 13).1 =
      .ok ∧
    (esp_jrnl_write fxI16open fxD20
      (some (List.replicate 13 [1])) 0 13).2.1.master.next_free_sector = 14 ∧
    esp_jrnl_write fxI16open fxD20 (some (List.replicate 14 [1])) 0 14 =
      (.noMem, fxI16open, fxD20) := by
  have hc := claim_C5_write_space_check fxI16open fxD20
    (List.replicate 13 [1]) 0 13 (by decide) (by decide)
  have hc14 := claim_C5_write_space_check fxI16open fxD20
    (List.replicate 14 [1]) 0 14 (by decide) (by decide)
  exact ⟨hc.1.mpr (by decide), hc.2.2 (by decide), hc14.2.1 (by decide)⟩

/-- C6 counterexample: with store_volume_offset_sector = 4, the read at
sector 2 with count 2 satisfies the claim's condition
`target_sector + count ≤ store_offset_sector` (4 ≤ 4), yet esp_jrnl_read
refuses it; and the out-of-range error is ESP_ERR_INVALID_SIZE, not
ESP_ERR_INVALID_ARG as the claim states. -/
theorem claim_C6_counterexample :
    2 + 2 ≤ fxI16open.master.store_volume_offset_sector ∧
    esp_jrnl_read fxI16open fxD20 false 2 2 = (.invalidSize, []) ∧
    (esp_jrnl_read fxI16open fxD20 false 5 1).1 = .invalidSize ∧
    (esp_jrnl_read fxI16open fxD20 false 5 1).1 ≠ .invalidArg := by
  exact ⟨by decide, by decide, by decide, by decide⟩

/-- C6 (amended): esp_jrnl_read is a bounds-checked passthrough of the
underlying device read: with a non-null destination the read is performed
exactly when the strict inequality `(sector + count) mod 2^32 <
store_volume_offset_sector` holds, and every read with
`sector + count ≥ store_volume_offset_sector` fails with
ESP_ERR_INVALID_SIZE. -/
theorem claim_C6_read_bounds (i : JrnlInstance) (d : Disk) (destNull : Bool)
    (sector count : Nat) :
    ((esp_jrnl_read i d destNull sector count).1 = .ok ↔
      destNull = false ∧ (sector + count) % U32 <
        i.master.store_volume_offset_sector) ∧
    (destNull = false → (sector + count) % U32 <
        i.master.store_volume_offset_sector →
      esp_jrnl_read i d destNull sector count =
        (.ok, diskRead d sector count)) ∧
    (destNull = false → (sector + count) % U32 ≥
        i.master.store_volume_offset_sector →
      esp_jrnl_read i d destNull sector count = (.invalidSize, [])) := by
  cases destNull with
  | true =>
    refine ⟨⟨fun hok => ?_, fun hc => by simp at hc⟩,
      fun hc => by simp at hc, fun hc => by simp at hc⟩
    rw [esp_jrnl_read, if_pos rfl] at hok
    exact absurd hok (by simp)
  | false =>
    by_cases hb : (sector + count) % U32 ≥ i.master.store_volume_offset_sector
    · have hres : esp_jrnl_read i d false sector count = (.invalidSize, []) := by
        rw [esp_jrnl_read, if_neg (by simp), if_pos hb]
      refine ⟨⟨fun hok => ?_, fun hc => ?_⟩, fun _ hlt => by omega,
        fun _ _ => hres⟩
      · rw [hres] at hok
        exact absurd hok (by simp)
      · omega
    · have hres : esp_jrnl_read i d false sector count =
          (.ok, diskRead d sector count) := by
        rw [esp_jrnl_read, if_neg (by simp), if_neg hb]
      refine ⟨⟨fun _ => ⟨rfl, by omega⟩, fun _ => by rw [hres]⟩,
        fun _ _ => hres, fun _ hge => by omega⟩

/-- Witness for C6 (amended): on the 16-sector store (offset 4) a read of
sectors [0,2) succeeds and a read of sectors [2,4) is refused with
ESP_ERR_INVALID_SIZE. -/
theorem claim_C6_witness :
    esp_jrnl_read fxI16open fxD20 false 0 2 =
      (.ok, diskRead fxD20 0 2) ∧
    esp_jrnl_read fxI16open fxD20 false 2 2 = (.invalidSize, []) := by
  have h := claim_C6_read_bounds fxI16open fxD20 false 0 2
  have h2 := claim_C6_read_bounds fxI16open fxD20 false 2 2
  exact ⟨h.2.1 rfl (by decide), h2.2.2 rfl (by decide)⟩

/-- C7 counterexample: esp_jrnl_stop with commit = false performs no status
check: invoked in status COMMIT (neither OPEN nor READY) it succeeds and
resets the master, where the claim requires an invalid-state failure. -/
theorem claim_C7_counterexample :
    fxI16commit.master.status = .transCommit ∧
    (esp_jrnl_stop fxI16commit fxD20 false).1 = .ok ∧
    (esp_jrnl_stop fxI16commit fxD20 false).2.1.master.status =
      .transReady := by
  exact ⟨by decide, by decide, by decide⟩

/-- C7 (amended): esp_jrnl_stop with commit = false is exactly
jrnl_reset_master in every state: it sets next_free_sector to 0 and status to
READY, persists the master, and touches no file-system target sector (no
sector below store_volume_offset_sector); it never checks the previous
status.  Only commit = true in a state other than OPEN fails with
ESP_ERR_INVALID_STATE. -/
theorem claim_C7_cancel_resets_unconditionally (i : JrnlInstance) (d : Disk) :
    esp_jrnl_stop i d false = jrnl_reset_master i d false ∧
    (esp_jrnl_stop i d false).2.1.master.status = .transReady ∧
    (esp_jrnl_stop i d false).2.1.master.next_free_sector = 0 ∧
    (∀ j, j < i.master.store_volume_offset_sector →
      diskGet (esp_jrnl_stop i d false).2.2 j = diskGet d j) ∧
    (i.master.status ≠ .transOpen →
      esp_jrnl_stop i d true = (.invalidState, i, d)) := by
  have hcancel : esp_jrnl_stop i d false = jrnl_reset_master i d false := rfl
  refine ⟨hcancel, ?_, ?_, ?_, ?_⟩
  · rw [hcancel, jrnl_reset_master_inst]
    rfl
  · rw [hcancel, jrnl_reset_master_inst]
    rfl
  · intro j hj
    rw [hcancel]
    by_cases hsz : 1 ≤ i.master.store_size_sectors
    · rw [jrnl_reset_master_succ i d false hsz]
      have hne : j ≠ masterIndex i.master := by
        simp only [masterIndex]; omega
      simp only [diskGet]
      rw [getD_set_ne _ _ _ _ _ hne, getD_set_ne _ _ _ _ _ hne]
    · rw [jrnl_reset_master_zero i d false (by omega)]
  · intro hop
    rw [esp_jrnl_stop]
    simp only [Bool.not_true, Bool.false_eq_true, if_false]
    rw [if_neg hop]

/-- Witness for C7 (amended): cancelling in status COMMIT resets the master,
and committing in status COMMIT fails with invalid state. -/
theorem claim_C7_witness :
    (esp_jrnl_stop fxI16commit fxD20 false).2.1.master.status =
      .transReady ∧
    (esp_jrnl_stop fxI16commit fxD20 false).2.1.master.next_free_sector = 0 ∧
    diskGet (esp_jrnl_stop fxI16commit fxD20 false).2.2 0 = diskGet fxD20 0 ∧
    esp_jrnl_stop fxI16commit fxD20 true =
      (.invalidState, fxI16commit, fxD20) := by
  have h := claim_C7_cancel_resets_unconditionally fxI16commit fxD20
  exact ⟨h.2.1, h.2.2.1, h.2.2.2.1 0 (by decide), h.2.2.2.2 (by decide)⟩

/-- C8 counterexample: esp_jrnl_write performs no bounds check of the target
sector against the store region.  A direct-path write (status
FS_INIT/FS_DIRECT) targeting sector 4 = store_volume_offset_sector is
accepted and modifies that store sector, where the claim requires rejection
with no device modification. -/
theorem claim_C8_counterexample :
    fxI16direct.master.store_volume_offset_sector ≤ 4 ∧
    (esp_jrnl_write fxI16direct fxD20 (some [[9]]) 4 1).1 = .ok ∧
    diskGet (esp_jrnl_write fxI16direct fxD20 (some [[9]]) 4 1).2.2 4 ≠
      diskGet fxD20 4 := by
  exact ⟨by decide, by decide, by decide⟩

/-- C8 (amended): esp_jrnl_write does not bounds-check its target sector
against store_volume_offset_sector on either path: in the direct
(FS_INIT/FS_DIRECT) path it erases and writes exactly the requested range
for every target sector, and in the OPEN path (given journal space and a
mountable store size) it accepts and journals an operation entry with any
target sector, including sectors inside the store region.  Only
jrnl_write_internal (store-relative writes) and esp_jrnl_read carry bounds
checks. -/
theorem claim_C8_write_unchecked (i : JrnlInstance) (d : Disk)
    (bs : List (List Nat)) (sector count : Nat) :
    (i.master.status = .fsInit →
      esp_jrnl_write i d (some bs) sector count =
        (.ok, i, diskWrite (diskErase d sector count) sector
          (bs.map Sector.raw))) ∧
    (i.master.status = .transOpen →
      (i.master.next_free_sector + 1 + count) % U32 <
        (i.master.store_size_sectors + (U32 - 1)) % U32 →
      JRNL_MIN_STORE_SIZE ≤ i.master.store_size_sectors →
      (esp_jrnl_write i d (some bs) sector count).1 = .ok ∧
      (esp_jrnl_write i d (some bs) sector count).2.1.master.next_free_sector =
        i.master.next_free_sector + 1 + count) := by
  constructor
  · intro hst
    obtain ⟨⟨mg, ss, off, nfs, st, vs, dss⟩⟩ := i
    simp only at hst
    subst hst
    simp only [esp_jrnl_write]
  · intro hst hc hsz
    have hspec := esp_jrnl_write_open_spec i d bs sector count hst
    have hsz1 : 1 ≤ i.master.store_size_sectors := by
      have : JRNL_MIN_STORE_SIZE = 3 := rfl
      omega
    exact ⟨(hspec.2 hc hsz1).1, by rw [(hspec.2 hc hsz1).2]⟩

/-- Witness for C8 (amended): the direct path writes into the store region
(sector 4 = store_volume_offset_sector), and the OPEN path journals an entry
whose target sector 10 lies inside the store region. -/
theorem claim_C8_witness :
    esp_jrnl_write fxI16direct fxD20 (some [[9]]) 4 1 =
      (.ok, fxI16direct,
        diskWrite (diskErase fxD20 4 1) 4 [Sector.raw [9]]) ∧
    (esp_jrnl_write fxI16open fxD20 (some [[5]]) 10 1).1 = .ok ∧
    (esp_jrnl_write fxI16open fxD20
      (some [[5]]) 10 1).2.1.master.next_free_sector = 2 := by
  have h1 := (claim_C8_write_unchecked fxI16direct fxD20 [[9]] 4 1).1
    (by decide)
  have h2 := (claim_C8_write_unchecked fxI16open fxD20 [[5]] 10 1).2
    (by decide) (by decide) (by decide)
  exact ⟨h1, h2.1, h2.2⟩

/-- C9 (the code as written): jrnl_check_handle rejects only the literal
handle -1 (with ESP_ERR_INVALID_STATE, not ESP_ERR_INVALID_ARG) and handles
≥ JRNL_MAX_HANDLES; any other negative handle (here -2) passes both guards
and the instance table is indexed out of bounds (undefined behaviour in C),
contradicting the claim that every negative handle is rejected and the table
is never indexed out of bounds. -/
theorem claim_C9_handle_check_out_of_bounds :
    jrnl_check_handle fxTable (-2) = .oobAccess (-2) ∧
    jrnl_check_handle fxTable (-1) = .err .invalidState ∧
    jrnl_check_handle fxTable (-1) ≠ .err .invalidArg ∧
    jrnl_check_handle fxTable 8 = .err .invalidArg ∧
    jrnl_check_handle fxTable 3 = .err .notFound := by
  exact ⟨by decide, by decide, by decide, by decide, by decide⟩

/-- C10 (the code as written): two return paths leak a held lock.
esp_jrnl_unmount returns on handle-check failure (here: handle 8, invalid)
while still holding the global registry lock (depth 1), and jrnl_replay on a
COMMIT store returns ESP_ERR_NO_MEM while still holding the per-instance
transaction lock (depth 1) when the operation-header buffer allocation
fails, contradicting the claim that every operation releases each lock it
acquires on every return path. -/
theorem claim_C10_lock_leaks :
    esp_jrnl_unmount_locks fxTable 8 = (.invalidArg, 1) ∧
    (jrnl_replay_locks fxI16commit fxD20 false).1.1 = .noMem ∧
    (jrnl_replay_locks fxI16commit fxD20 false).2 = 1 := by
  exact ⟨by decide, by decide, by decide⟩

end EspJrnl
